import Mathlib

deriving instance DecidableEq for Except

/-!
Verification of the provisioning reconciliation core of `s1cli`
(`internal/api/models.go`), shallowly embedded in Lean 4.

The remote SentinelOne API, the Go standard-library time parsers
(`time.ParseDuration`, `time.Parse(time.RFC3339, ...)`) and the random
password generator are modelled as an oracle environment `Env`: each field
gives the decoded outcome of one kind of remote call (or stdlib call).
Each client operation is translated into a pure function from the oracle
environment and its arguments to a result together with the list of remote
calls it issued, following the Go control flow of `models.go` line by line.

Times (`time.Time`) and durations are modelled as integers (instants /
nanosecond counts); the RFC3339 wire formatting of an instant performed by
the Go code when serialising a request body is treated as part of the codec
and the bodies below carry the instant itself.

Error values (`errorx.Error`) are modelled by the `Err` inductive carrying
the message string passed to `errors.NewS1ClientError` /
`errors.NewS1ClientRequestError`; the wrapped Go `error` causes are not
modelled.  (In the Go source `NewS1ClientError` happens to return a
`*S1ClientRequestError` value with empty method/url but the distinct
`S1ClientErrorCode` code; the two constructors of `Err` model the two
distinct error codes.)
-/

namespace S1Client

/-- Model of `errorx.Error` values produced by `internal/errors`:
`clientError` is `errors.NewS1ClientError(msg, err)`,
`requestError` is `errors.NewS1ClientRequestError(method, url, msg, err)`. -/
inductive Err where
  | clientError (msg : String)
  | requestError (method url msg : String)
deriving Repr, DecidableEq

/-- `S1UserScopeRole` (`models.go`): a single scope role for an S1 user. -/
structure S1UserScopeRole where
  ScopeID : String
  RoleID : String
  RoleName : String
deriving Repr, DecidableEq

/-- `S1Account` (`models.go`): the actual S1 account object.
`Expiration` (`time.Time` in Go) is an abstract instant. -/
structure S1Account where
  ID : String
  AccountType : String
  BillingMode : String
  Expiration : Int
  ExternalID : String
  Name : String
  State : String
deriving Repr, DecidableEq

/-- `S1User` (`models.go`): the actual S1 user object. -/
structure S1User where
  ID : String
  EmailAddress : String
  EmailVerified : Bool
  TwoFactorStatus : String
  Scope : String
  ScopeRoles : List S1UserScopeRole
deriving Repr, DecidableEq

/-- `S1Role` (`models.go`). -/
structure S1Role where
  AccountName : String
  ID : String
  Name : String
  PredefinedRole : Bool
  Scope : String
  ScopeID : String
  UsersInRole : Nat
deriving Repr, DecidableEq

/-- `S1AccountProvisioningRequest` (`models.go`): body of an account
provisioning request. -/
structure S1AccountProvisioningRequest where
  AccountName : String
  AccountType : String
  Expires : String
  ExternalID : String
  ReactivateAccount : Bool
  Bundle : String
  TotalAgents : Int
  Modules : List String
deriving Repr, DecidableEq

/-- `S1UserProvisioningRequest` (`models.go`): body of a user provisioning
request. -/
structure S1UserProvisioningRequest where
  FirstName : String
  LastName : String
  EmailAddress : String
  Role : String
deriving Repr, DecidableEq

/-- `S1APIAccountObject` (`models.go`): account object on the wire;
`Expiration` is an RFC3339 string still to be parsed. -/
structure S1APIAccountObject where
  ID : String
  AccountType : String
  BillingMode : String
  Expiration : String
  ExternalID : String
  Name : String
  State : String
deriving Repr, DecidableEq

/-- `S1APIUserScopeRoleObject` (`models.go`). -/
structure S1APIUserScopeRoleObject where
  ScopeID : String
  RoleID : String
  RoleName : String
deriving Repr, DecidableEq

/-- `S1APIUserObject` (`models.go`): user object on the wire. -/
structure S1APIUserObject where
  ID : String
  EmailAddress : String
  EmailVerified : Bool
  TwoFactorStatus : String
  Scope : String
  ScopeRoles : List S1APIUserScopeRoleObject
deriving Repr, DecidableEq

/-- `S1APIRoleObject` (`models.go`): role object on the wire. -/
structure S1APIRoleObject where
  AccountName : String
  ID : String
  Name : String
  PredefinedRole : Bool
  Scope : String
  ScopeID : String
  UsersInRole : Nat
deriving Repr, DecidableEq

/-- Body of the `PUT /accounts/{id}/reactivate` call
(`ReactivateAccount`, `models.go` lines 560-565): `{unlimited, expiration}`.
The Go code formats the expiration instant with `time.RFC3339`; the body
here carries the instant itself. -/
structure ReactivateBody where
  unlimited : Bool
  expiration : Int
deriving Repr, DecidableEq

/-- Body of the `POST /accounts` create call (`CreateAccount`, `models.go`
lines 288-335).  `settings` lists the `(groupName, setting)` pairs;
`totalAgents` is the count of the single `"Total Agents"` surface of the
single bundle. -/
structure CreateAccountBody where
  name : String
  accountType : String
  billingMode : String
  expiration : Int
  externalID : String
  inherits : Bool
  bundle : String
  totalAgents : Int
  modules : List String
  settings : List (String × String)
  unlimitedExpiration : Bool
  usageType : String
deriving Repr, DecidableEq

/-- Body of the `POST /users` create call (`CreateUser`, `models.go` lines
397-411).  `scopeRoles` lists `(id, roleName)` pairs. -/
structure CreateUserBody where
  email : String
  password : String
  fullName : String
  scope : String
  scopeRoles : List (String × String)
  twoFaEnabled : Bool
deriving Repr, DecidableEq

/-- One remote API call issued by the client, with its semantic payload.
`findAccount name` is `GET /accounts?name=..&limit=1`, `findUser email` is
`GET /users?email=..&limit=1`, `findRole accountID name` is
`GET /rbac/roles?accountIds=..&name=..&limit=1`, the rest carry their
request bodies. -/
inductive RemoteCall where
  | findAccount (name : String)
  | findUser (email : String)
  | findRole (accountID name : String)
  | createAccount (body : CreateAccountBody)
  | reactivateAccount (id : String) (body : ReactivateBody)
  | createUser (body : CreateUserBody)
  | updateUserScopeRoles (userID : String) (scope : String) (roles : List S1UserScopeRole)
deriving Repr, DecidableEq

/-- Outcome of one `exec` call as seen by a resource operation:
`execError e` is `exec` returning an error, `decodeError` is
`json.Unmarshal` of the envelope's `data` payload failing, and `ok a` is
the successfully decoded payload. -/
inductive ExecResult (α : Type) where
  | execError (e : Err)
  | decodeError
  | ok (a : α)
deriving Repr, DecidableEq

/-- Oracle environment: outcomes of remote calls and of the Go stdlib
calls used by the reconciliation core.  `parseDuration` models
`time.ParseDuration`, `parseRFC3339` models `time.Parse(time.RFC3339, ·)`
(`none` = parse error), `now` models `time.Now()`, `randPassword` the
generated 32-character random password. -/
structure Env where
  parseDuration : String → Option Int
  parseRFC3339 : String → Option Int
  now : Int
  randPassword : String
  findAccountExec : String → ExecResult (List S1APIAccountObject)
  findUserExec : String → ExecResult (List S1APIUserObject)
  findRoleExec : String → String → ExecResult (List S1APIRoleObject)
  createAccountExec : CreateAccountBody → ExecResult S1APIAccountObject
  createUserExec : CreateUserBody → ExecResult S1APIUserObject
  reactivateExec : String → ReactivateBody → ExecResult Bool
  updateUserExec : String → List S1UserScopeRole → ExecResult S1APIUserObject

/-- `fromS1APIAccountObject` (`models.go` lines 708-725): converts a wire
account to a domain account, failing when the RFC3339 expiration string
does not parse. -/
def fromS1APIAccountObject (env : Env) (o : S1APIAccountObject) : Except Err S1Account :=
  match env.parseRFC3339 o.Expiration with
  | none => Except.error (Err.clientError "failed to parse account expiration date")
  | some t => Except.ok
      { ID := o.ID, AccountType := o.AccountType, BillingMode := o.BillingMode,
        Expiration := t, ExternalID := o.ExternalID, Name := o.Name, State := o.State }

/-- `fromS1APIUserObject` (`models.go` lines 734-747): field-by-field
conversion; never fails. -/
def fromS1APIUserObject (o : S1APIUserObject) : S1User :=
  { ID := o.ID, EmailAddress := o.EmailAddress, EmailVerified := o.EmailVerified,
    TwoFactorStatus := o.TwoFactorStatus, Scope := o.Scope,
    ScopeRoles := o.ScopeRoles.map (fun r =>
      { ScopeID := r.ScopeID, RoleID := r.RoleID, RoleName := r.RoleName }) }

/-- `fromS1APIRoleObject` (`models.go` lines 728-731): a pure relabeling;
never fails. -/
def fromS1APIRoleObject (o : S1APIRoleObject) : S1Role :=
  { AccountName := o.AccountName, ID := o.ID, Name := o.Name,
    PredefinedRole := o.PredefinedRole, Scope := o.Scope, ScopeID := o.ScopeID,
    UsersInRole := o.UsersInRole }

/-- Result part of `FindAccount` (`models.go` lines 461-488): search by
name, empty result list means `(nil, nil)`, otherwise convert the first
element. -/
def findAccountResult (env : Env) (name : String) : Except Err (Option S1Account) :=
  match env.findAccountExec name with
  | ExecResult.execError e => Except.error e
  | ExecResult.decodeError => Except.error (Err.clientError "failed to unmarshal response from server")
  | ExecResult.ok apiAccounts =>
    match apiAccounts with
    | [] => Except.ok none
    | a :: _ =>
      match fromS1APIAccountObject env a with
      | Except.error e => Except.error e
      | Except.ok account => Except.ok (some account)

/-- `FindAccount` (`models.go` lines 461-488) together with the single
remote call it issues. -/
def FindAccount (env : Env) (name : String) :
    Except Err (Option S1Account) × List RemoteCall :=
  (findAccountResult env name, [RemoteCall.findAccount name])

/-- Result part of `FindUser` (`models.go` lines 526-553). -/
def findUserResult (env : Env) (email : String) : Except Err (Option S1User) :=
  match env.findUserExec email with
  | ExecResult.execError e => Except.error e
  | ExecResult.decodeError => Except.error (Err.clientError "failed to unmarshal response from server")
  | ExecResult.ok apiUsers =>
    match apiUsers with
    | [] => Except.ok none
    | u :: _ => Except.ok (some (fromS1APIUserObject u))

/-- `FindUser` (`models.go` lines 526-553) with its single remote call. -/
def FindUser (env : Env) (email : String) :
    Except Err (Option S1User) × List RemoteCall :=
  (findUserResult env email, [RemoteCall.findUser email])

/-- Result part of `FindRole` (`models.go` lines 493-521). -/
def findRoleResult (env : Env) (accountID name : String) : Except Err (Option S1Role) :=
  match env.findRoleExec accountID name with
  | ExecResult.execError e => Except.error e
  | ExecResult.decodeError => Except.error (Err.clientError "failed to unmarshal response from server")
  | ExecResult.ok apiRoles =>
    match apiRoles with
    | [] => Except.ok none
    | r :: _ => Except.ok (some (fromS1APIRoleObject r))

/-- `FindRole` (`models.go` lines 493-521) with its single remote call. -/
def FindRole (env : Env) (accountID name : String) :
    Except Err (Option S1Role) × List RemoteCall :=
  (findRoleResult env accountID name, [RemoteCall.findRole accountID name])

/-- The "configure expiration" block of `CreateAccount` (`models.go` lines
239-252): try `time.ParseDuration(req.Expires)` relative to now, then
`time.Parse(time.RFC3339, req.Expires)`, otherwise fail naming the value. -/
def resolveExpiration (env : Env) (expires : String) : Except Err Int :=
  match env.parseDuration expires with
  | some dur => Except.ok (env.now + dur)
  | none =>
    match env.parseRFC3339 expires with
    | some t => Except.ok t
    | none => Except.error (Err.clientError
        ("failed to parse account expiration time and date '" ++ expires ++ "'"))

/-- Result part of `ReactivateAccount` (`models.go` lines 556-587) for a
given body: fails on exec error, decode error, or `success=false`. -/
def reactivateResult (env : Env) (id : String) (body : ReactivateBody) : Except Err Unit :=
  match env.reactivateExec id body with
  | ExecResult.execError e => Except.error e
  | ExecResult.decodeError => Except.error (Err.clientError "failed to unmarshal response from server")
  | ExecResult.ok success =>
    if !success then Except.error (Err.clientError "failed to reactivate account")
    else Except.ok ()

/-- `ReactivateAccount` (`models.go` lines 556-587): issues
`PUT /accounts/{id}/reactivate` with body `{unlimited: false, expiration}`
and checks the reported success flag. -/
def ReactivateAccount (env : Env) (id : String) (expires : Int) :
    Except Err Unit × List RemoteCall :=
  let body : ReactivateBody := { unlimited := false, expiration := expires }
  (reactivateResult env id body, [RemoteCall.reactivateAccount id body])

/-- The hard-coded default account settings of the create body
(`models.go` lines 309-330). -/
def defaultAccountSettings : List (String × String) :=
  [("dv_retention", "30 Days"),
   ("malicious_data_retention", "365 Days"),
   ("remote_shell_availability", "Enabled"),
   ("marketplace_access_status", "Available"),
   ("account_level_ranger", "Account")]

/-- The `POST /accounts` body built by `CreateAccount` (`models.go` lines
284-335). -/
def mkCreateAccountBody (req : S1AccountProvisioningRequest) (expires : Int) :
    CreateAccountBody :=
  { name := req.AccountName, accountType := req.AccountType,
    billingMode := "subscription", expiration := expires,
    externalID := req.ExternalID, inherits := true, bundle := req.Bundle,
    totalAgents := req.TotalAgents, modules := req.Modules,
    settings := defaultAccountSettings, unlimitedExpiration := false,
    usageType := "customer" }

/-- `CreateAccount` (`models.go` lines 232-349), following the Go control
flow: look the account up by name first, then resolve the expiration, then
branch on the found account's state (`active` / `expired` / other), else
issue the create call and decode the new account. -/
def CreateAccount (env : Env) (req : S1AccountProvisioningRequest) :
    Except Err S1Account × List RemoteCall :=
  let lookupCalls := (FindAccount env req.AccountName).2
  match (FindAccount env req.AccountName).1 with
  | Except.error e => (Except.error e, lookupCalls)
  | Except.ok accountOpt =>
    match resolveExpiration env req.Expires with
    | Except.error e => (Except.error e, lookupCalls)
    | Except.ok expires =>
      match accountOpt with
      | some account =>
        if account.State = "active" then
          (Except.ok account, lookupCalls)
        else if account.State = "expired" then
          if !req.ReactivateAccount then
            (Except.error (Err.clientError
              "failed to create account because it is expired and not set to be reactivated"),
             lookupCalls)
          else
            match ReactivateAccount env account.ID expires with
            | (Except.error e, rcalls) => (Except.error e, lookupCalls ++ rcalls)
            | (Except.ok _, rcalls) => (Except.ok account, lookupCalls ++ rcalls)
        else
          (Except.error (Err.clientError
            ("failed to create account because it exists and is currently '"
              ++ account.State ++ "'")), lookupCalls)
      | none =>
        let body := mkCreateAccountBody req expires
        let calls := lookupCalls ++ [RemoteCall.createAccount body]
        match env.createAccountExec body with
        | ExecResult.execError e => (Except.error e, calls)
        | ExecResult.decodeError =>
          (Except.error (Err.clientError "failed to unmarshal response from server"), calls)
        | ExecResult.ok newAcct =>
          match fromS1APIAccountObject env newAcct with
          | Except.error e => (Except.error e, calls)
          | Except.ok a => (Except.ok a, calls)

/-- Outcome of a Go function that may also crash: `nilPanic` models a
nil-pointer dereference (a runtime panic, neither a return value nor an
`errorx.Error`). -/
inductive GoResult (α : Type) where
  | ok (a : α)
  | err (e : Err)
  | nilPanic
deriving Repr, DecidableEq

/-- Result part of `UpdateUserScopeRoles` (`models.go` lines 622-647). -/
def updateUserScopeRolesResult (env : Env) (userID : String)
    (roles : List S1UserScopeRole) : Except Err S1User :=
  match env.updateUserExec userID roles with
  | ExecResult.execError e => Except.error e
  | ExecResult.decodeError => Except.error (Err.clientError "failed to unmarshal response from server")
  | ExecResult.ok u => Except.ok (fromS1APIUserObject u)

/-- `UpdateUserScopeRoles` (`models.go` lines 622-647): issues
`PUT /users/{id}` with body `{scope: "account", scopeRoles: roles}`. -/
def UpdateUserScopeRoles (env : Env) (userID : String)
    (roles : List S1UserScopeRole) : Except Err S1User × List RemoteCall :=
  (updateUserScopeRolesResult env userID roles,
   [RemoteCall.updateUserScopeRoles userID "account" roles])

/-- The `POST /users` body built by `CreateUser` (`models.go` lines
397-411). -/
def mkCreateUserBody (env : Env) (req : S1UserProvisioningRequest)
    (accountID : String) : CreateUserBody :=
  { email := req.EmailAddress, password := env.randPassword,
    fullName := req.FirstName ++ " " ++ req.LastName, scope := "account",
    scopeRoles := [(accountID, req.Role)], twoFaEnabled := true }

/-- `CreateUser` (`models.go` lines 352-425), following the Go control
flow: look the user up by email, resolve the `Admin` role in the target
account, then for an existing user either return it unchanged (some scope
role already names `accountID`) or append an Admin scope-role entry and
issue the update — dereferencing `adminRole` without a nil check, which is
a runtime panic when `FindRole` reported the role absent; for a
nonexistent user, issue the create call carrying the requested role. -/
def CreateUser (env : Env) (req : S1UserProvisioningRequest) (accountID : String) :
    GoResult S1User × List RemoteCall :=
  let lookupCalls := (FindUser env req.EmailAddress).2
  match (FindUser env req.EmailAddress).1 with
  | Except.error e => (GoResult.err e, lookupCalls)
  | Except.ok userOpt =>
    let roleCalls := lookupCalls ++ (FindRole env accountID "Admin").2
    match (FindRole env accountID "Admin").1 with
    | Except.error e => (GoResult.err e, roleCalls)
    | Except.ok adminRoleOpt =>
      match userOpt with
      | some user =>
        if user.ScopeRoles.any (fun role => role.ScopeID == accountID) then
          (GoResult.ok user, roleCalls)
        else
          match adminRoleOpt with
          | none => (GoResult.nilPanic, roleCalls)
          | some adminRole =>
            let newRoles := user.ScopeRoles ++
              [{ ScopeID := accountID, RoleID := adminRole.ID, RoleName := adminRole.Name }]
            match UpdateUserScopeRoles env user.ID newRoles with
            | (Except.error e, ucalls) => (GoResult.err e, roleCalls ++ ucalls)
            | (Except.ok updated, ucalls) => (GoResult.ok updated, roleCalls ++ ucalls)
      | none =>
        let body := mkCreateUserBody env req accountID
        let calls := roleCalls ++ [RemoteCall.createUser body]
        match env.createUserExec body with
        | ExecResult.execError e => (GoResult.err e, calls)
        | ExecResult.decodeError =>
          (GoResult.err (Err.clientError "failed to unmarshal response from server"), calls)
        | ExecResult.ok newUser => (GoResult.ok (fromS1APIUserObject newUser), calls)

/-- One entry of the response envelope's `errors` list (`S1APIErrors`,
`models.go` lines 16-22). -/
structure S1APIErrorEntry where
  code : Nat
  detail : String
  title : String
deriving Repr, DecidableEq

/-- `S1APIResponse` (`models.go` lines 9-30): the common response
envelope.  `Data` stands for the opaque raw payload. -/
structure S1APIResponse where
  Errors : List S1APIErrorEntry
  NextCursor : String
  TotalItems : Nat
  Data : String
deriving Repr, DecidableEq

/-- What the HTTP layer handed back to `exec`: a transport failure from
`req.Execute`, or a status code together with the envelope the body decodes
to (`none` = the body does not unmarshal as an envelope). -/
inductive HTTPOutcome where
  | transportError
  | response (statusCode : Nat) (body : Option S1APIResponse)
deriving Repr, DecidableEq

/-- The URL built by `exec` (`models.go` line 651). -/
def execURL (baseURL endpoint : String) : String :=
  baseURL ++ "/web/api/v2.1" ++ endpoint

/-- `exec` (`models.go` lines 650-705): classify the HTTP outcome — a
transport error fails; a status `>= 405` (method not allowed) fails; a
status `>= 500` fails (unreachable after the previous check, kept as in
the source); an undecodable body fails; an envelope with a non-empty
`errors` list fails with the single synthetic "server returned one or more
API errors" error; otherwise the envelope is returned. -/
def exec (baseURL method endpoint : String) (outcome : HTTPOutcome) :
    Except Err S1APIResponse :=
  let url := execURL baseURL endpoint
  match outcome with
  | HTTPOutcome.transportError =>
    Except.error (Err.requestError method url "failed to execute request")
  | HTTPOutcome.response httpCode body =>
    if httpCode ≥ 405 then
      Except.error (Err.requestError method url "failed to execute request")
    else if httpCode ≥ 500 then
      Except.error (Err.requestError method url "failed to execute request")
    else
      match body with
      | none => Except.error (Err.requestError method url "failed to unmarshal response from request")
      | some apiResponse =>
        if apiResponse.Errors.length > 0 then
          Except.error (Err.requestError method url "server returned one or more API errors")
        else
          Except.ok apiResponse

/-! ### Concrete sample environments used by witnesses and counterexamples

The parser oracle fields of these environments reflect the behaviour of the
Go standard library on the concrete strings used: `"720h"` parses as a
duration and not as RFC3339; `"2026-01-01T00:00:00Z"` parses as RFC3339 and
not as a duration; `"garbage"` and `""` parse as neither. -/

/-- Baseline oracle environment: both parsers always fail, every search
returns an empty result list, every mutation exec fails to decode. -/
def emptyEnv : Env :=
  { parseDuration := fun _ => none,
    parseRFC3339 := fun _ => none,
    now := 0,
    randPassword := "pw",
    findAccountExec := fun _ => ExecResult.ok [],
    findUserExec := fun _ => ExecResult.ok [],
    findRoleExec := fun _ _ => ExecResult.ok [],
    createAccountExec := fun _ => ExecResult.decodeError,
    createUserExec := fun _ => ExecResult.decodeError,
    reactivateExec := fun _ _ => ExecResult.decodeError,
    updateUserExec := fun _ _ => ExecResult.decodeError }

/-- Duration parser oracle recognising exactly `"720h"` (as 720 units). -/
def parse720h : String → Option Int :=
  fun s => if s == "720h" then some 720 else none

/-- RFC3339 parser oracle recognising exactly `"2026-01-01T00:00:00Z"`
(as instant 100). -/
def parseSampleRFC : String → Option Int :=
  fun s => if s == "2026-01-01T00:00:00Z" then some 100 else none

/-- A wire account in state `expired`. -/
def apiAcctExpired : S1APIAccountObject :=
  { ID := "acct-1", AccountType := "customer", BillingMode := "subscription",
    Expiration := "2026-01-01T00:00:00Z", ExternalID := "ext",
    Name := "Acme", State := "expired" }

/-- A wire account in state `active`. -/
def apiAcctActive : S1APIAccountObject :=
  { apiAcctExpired with State := "active" }

/-- The domain account decoded from `apiAcctExpired`. -/
def acctExpired : S1Account :=
  { ID := "acct-1", AccountType := "customer", BillingMode := "subscription",
    Expiration := 100, ExternalID := "ext", Name := "Acme", State := "expired" }

/-- The domain account decoded from `apiAcctActive`. -/
def acctActive : S1Account :=
  { acctExpired with State := "active" }

/-- A sample account provisioning request with a duration-shaped
expiration. -/
def req720 : S1AccountProvisioningRequest :=
  { AccountName := "Acme", AccountType := "customer", Expires := "720h",
    ExternalID := "ext", ReactivateAccount := false, Bundle := "core",
    TotalAgents := 10, Modules := [] }

/-- The sample request with an expiration string that parses neither as a
duration nor as an RFC3339 timestamp. -/
def reqGarbage : S1AccountProvisioningRequest :=
  { req720 with Expires := "garbage" }

/-! ### Claims C1, C2, C4, C5, C9 — account reconciliation -/

/-- Claim C1: when the request's name matches an existing account whose
state is `expired` and `ReactivateAccount` is false, `CreateAccount`
returns an error (so no account), and the only remote call issued is the
account lookup — in particular no create call and no reactivation call. -/
theorem createAccount_expired_noReactivate_fails
    (env : Env) (req : S1AccountProvisioningRequest) (account : S1Account)
    (hfind : (FindAccount env req.AccountName).1 = Except.ok (some account))
    (hstate : account.State = "expired")
    (hre : req.ReactivateAccount = false) :
    (∃ e, (CreateAccount env req).1 = Except.error e) ∧
    (CreateAccount env req).2 = [RemoteCall.findAccount req.AccountName] := by
  have hfr : findAccountResult env req.AccountName = Except.ok (some account) := hfind
  unfold CreateAccount
  simp only [FindAccount, hfr]
  cases hres : resolveExpiration env req.Expires with
  | error e => simp
  | ok t =>
    simp only [hstate, hre]
    simp

/-- Oracle environment for the C1 witness: the lookup finds the expired
sample account. -/
def envC1w : Env :=
  { emptyEnv with
    parseRFC3339 := parseSampleRFC,
    findAccountExec := fun _ => ExecResult.ok [apiAcctExpired] }

/-- Witness for C1 at a concrete input. -/
theorem createAccount_expired_noReactivate_fails_witness :
    (∃ e, (CreateAccount envC1w req720).1 = Except.error e) ∧
    (CreateAccount envC1w req720).2 = [RemoteCall.findAccount "Acme"] :=
  createAccount_expired_noReactivate_fails envC1w req720 acctExpired
    (by decide) (by decide) (by decide)

/-- Oracle environment for the C2 counterexample: the lookup finds the
active sample account, and the request's expiration string parses neither
way (as in Go for `"garbage"`). -/
def envC2x : Env :=
  { emptyEnv with
    parseRFC3339 := parseSampleRFC,
    findAccountExec := fun _ => ExecResult.ok [apiAcctActive] }

/-- Counterexample to claim C2 as stated: the request's name matches an
existing account in state `active`, yet `CreateAccount` does not return
that account — it fails with the expiration validation error, because the
code resolves the expiration after the lookup and before the state switch.
(In Go, `"garbage"` parses neither as a duration nor as RFC3339.) -/
theorem createAccount_active_adoption_cex :
    (FindAccount envC2x "Acme").1 = Except.ok (some acctActive) ∧
    acctActive.State = "active" ∧
    (CreateAccount envC2x reqGarbage).1 = Except.error (Err.clientError
      "failed to parse account expiration time and date 'garbage'") := by decide

/-- Claim C2 (amended: provided the request's expiration value resolves):
when the request's name matches an existing account in state `active`,
`CreateAccount` returns the found account unchanged (same identifier and
fields, resolved expiration discarded, expiration never extended) and the
only remote call issued is the lookup — no create call, no reactivation
call.  In particular a second reconciliation run with identical input
after a run that created the account returns the same account identifier
with only a lookup performed. -/
theorem createAccount_active_adoption
    (env : Env) (req : S1AccountProvisioningRequest) (account : S1Account) (texp : Int)
    (hfind : (FindAccount env req.AccountName).1 = Except.ok (some account))
    (hres : resolveExpiration env req.Expires = Except.ok texp)
    (hstate : account.State = "active") :
    (CreateAccount env req).1 = Except.ok account ∧
    (CreateAccount env req).2 = [RemoteCall.findAccount req.AccountName] := by
  have hfr : findAccountResult env req.AccountName = Except.ok (some account) := hfind
  unfold CreateAccount
  simp only [FindAccount, hfr, hres, hstate]
  simp

/-- Oracle environment for the C2 witness: the lookup finds the active
sample account and `"720h"` resolves as a duration. -/
def envC2w : Env :=
  { envC2x with parseDuration := parse720h }

/-- Witness for the amended C2 at a concrete input. -/
theorem createAccount_active_adoption_witness :
    (CreateAccount envC2w req720).1 = Except.ok acctActive ∧
    (CreateAccount envC2w req720).2 = [RemoteCall.findAccount "Acme"] :=
  createAccount_active_adoption envC2w req720 acctActive 720
    (by decide) (by decide) (by decide)

/-- Claim C4: the expiration string is resolved with duration-first
precedence — if it parses as a duration the target is now plus that
duration; otherwise if it parses as an absolute timestamp the target is
that timestamp literally; otherwise `CreateAccount` fails with the
validation error naming the unparsable value (given that the account
lookup, which the code performs first, succeeded). -/
theorem resolveExpiration_precedence
    (env : Env) (req : S1AccountProvisioningRequest) (acctOpt : Option S1Account)
    (hfind : (FindAccount env req.AccountName).1 = Except.ok acctOpt) :
    (∀ d, env.parseDuration req.Expires = some d →
       resolveExpiration env req.Expires = Except.ok (env.now + d)) ∧
    (∀ t, env.parseDuration req.Expires = none →
       env.parseRFC3339 req.Expires = some t →
       resolveExpiration env req.Expires = Except.ok t) ∧
    (env.parseDuration req.Expires = none →
       env.parseRFC3339 req.Expires = none →
       (CreateAccount env req).1 = Except.error (Err.clientError
         ("failed to parse account expiration time and date '" ++ req.Expires ++ "'"))) := by
  have hfr : findAccountResult env req.AccountName = Except.ok acctOpt := hfind
  refine ⟨?_, ?_, ?_⟩
  · intro d hd
    unfold resolveExpiration
    simp [hd]
  · intro t hd ht
    unfold resolveExpiration
    simp [hd, ht]
  · intro hd ht
    have hres : resolveExpiration env req.Expires = Except.error (Err.clientError
        ("failed to parse account expiration time and date '" ++ req.Expires ++ "'")) := by
      unfold resolveExpiration
      simp [hd, ht]
    unfold CreateAccount
    simp [FindAccount, hfr, hres]

/-- Oracle environment for the C4 witness: empty remote state, `"720h"`
recognised as a duration, `"2026-01-01T00:00:00Z"` as a timestamp. -/
def envC4w : Env :=
  { emptyEnv with parseDuration := parse720h, parseRFC3339 := parseSampleRFC }

/-- The sample request with an absolute RFC3339 expiration string. -/
def reqAbsolute : S1AccountProvisioningRequest :=
  { req720 with Expires := "2026-01-01T00:00:00Z" }

/-- Witness for C4 at concrete inputs: one request per precedence branch. -/
theorem resolveExpiration_precedence_witness :
    resolveExpiration envC4w req720.Expires = Except.ok 720 ∧
    resolveExpiration envC4w reqAbsolute.Expires = Except.ok 100 ∧
    (CreateAccount envC4w reqGarbage).1 = Except.error (Err.clientError
      "failed to parse account expiration time and date 'garbage'") :=
  ⟨(resolveExpiration_precedence envC4w req720 none (by decide)).1 720 (by decide),
   (resolveExpiration_precedence envC4w reqAbsolute none (by decide)).2.1 100
     (by decide) (by decide),
   (resolveExpiration_precedence envC4w reqGarbage none (by decide)).2.2
     (by decide) (by decide)⟩

/-- Oracle environment for the C5 counterexample: the lookup finds the
expired sample account and the request's expiration parses neither way. -/
def envC5x : Env := envC1w

/-- The garbage-expiration request with `ReactivateAccount` set. -/
def reqGarbageReactivate : S1AccountProvisioningRequest :=
  { reqGarbage with ReactivateAccount := true }

/-- Counterexample to claim C5 as stated: the request matches an existing
`expired` account and `ReactivateAccount` is true, yet no reactivation
call is issued — the trace holds only the lookup, because the expiration
validation error aborts the operation first. -/
theorem createAccount_reactivation_cex :
    (FindAccount envC5x "Acme").1 = Except.ok (some acctExpired) ∧
    reqGarbageReactivate.ReactivateAccount = true ∧
    (CreateAccount envC5x reqGarbageReactivate).2 = [RemoteCall.findAccount "Acme"] ∧
    (CreateAccount envC5x reqGarbageReactivate).1 = Except.error (Err.clientError
      "failed to parse account expiration time and date 'garbage'") := by decide

/-- Claim C5 (amended: provided the request's expiration value resolves):
for an existing `expired` account with `ReactivateAccount` true,
`CreateAccount` issues exactly one reactivation call, whose body carries
`unlimited = false` and the resolved expiration (never an unlimited
expiration); it fails when the platform does not report success, and on
success returns the originally found account object — same identifier,
`State` and `Expiration` exactly as found, not refreshed from the
reactivation response. -/
theorem createAccount_reactivation
    (env : Env) (req : S1AccountProvisioningRequest) (account : S1Account) (texp : Int)
    (hfind : (FindAccount env req.AccountName).1 = Except.ok (some account))
    (hstate : account.State = "expired")
    (hre : req.ReactivateAccount = true)
    (hres : resolveExpiration env req.Expires = Except.ok texp) :
    (CreateAccount env req).2 = [RemoteCall.findAccount req.AccountName,
       RemoteCall.reactivateAccount account.ID { unlimited := false, expiration := texp }] ∧
    (env.reactivateExec account.ID { unlimited := false, expiration := texp } =
        ExecResult.ok false →
       (CreateAccount env req).1 = Except.error (Err.clientError "failed to reactivate account")) ∧
    (env.reactivateExec account.ID { unlimited := false, expiration := texp } =
        ExecResult.ok true →
       (CreateAccount env req).1 = Except.ok account) := by
  have hfr : findAccountResult env req.AccountName = Except.ok (some account) := hfind
  unfold CreateAccount
  simp only [FindAccount, hfr, hres, hstate, hre]
  unfold ReactivateAccount
  refine ⟨?_, ?_, ?_⟩
  · cases hr : reactivateResult env account.ID { unlimited := false, expiration := texp } with
    | error e => simp [hr]
    | ok u => simp [hr]
  · intro hx
    have hr : reactivateResult env account.ID { unlimited := false, expiration := texp } =
        Except.error (Err.clientError "failed to reactivate account") := by
      unfold reactivateResult
      simp [hx]
    simp [hr]
  · intro hx
    have hr : reactivateResult env account.ID { unlimited := false, expiration := texp } =
        Except.ok () := by
      unfold reactivateResult
      simp [hx]
    simp [hr]

/-- Oracle environment for the C5 witness: expired account found, `"720h"`
resolves, reactivation exec reports success. -/
def envC5w : Env :=
  { envC1w with
    parseDuration := parse720h,
    reactivateExec := fun _ _ => ExecResult.ok true }

/-- Witness for the amended C5 at a concrete input. -/
theorem createAccount_reactivation_witness :
    (CreateAccount envC5w { req720 with ReactivateAccount := true }).2 =
      [RemoteCall.findAccount "Acme",
       RemoteCall.reactivateAccount "acct-1" { unlimited := false, expiration := 720 }] ∧
    (CreateAccount envC5w { req720 with ReactivateAccount := true }).1 =
      Except.ok acctExpired :=
  ⟨(createAccount_reactivation envC5w { req720 with ReactivateAccount := true }
      acctExpired 720 (by decide) (by decide) (by decide) (by decide)).1,
   (createAccount_reactivation envC5w { req720 with ReactivateAccount := true }
      acctExpired 720 (by decide) (by decide) (by decide) (by decide)).2.2 (by decide)⟩

/-- Oracle environment for the C9 counterexample and witness: empty remote
state, both parsers fail on everything. -/
def envC9 : Env := emptyEnv

/-- Counterexample to claim C9 as stated: for a request whose expiration
string parses neither way, `CreateAccount` does issue a remote call — the
account lookup — before failing with the validation error; the code looks
the account up first and resolves the expiration second, contrary to the
spec's step ordering. -/
theorem createAccount_parse_before_lookup_cex :
    (CreateAccount envC9 reqGarbage).1 = Except.error (Err.clientError
      "failed to parse account expiration time and date 'garbage'") ∧
    (CreateAccount envC9 reqGarbage).2 = [RemoteCall.findAccount "Acme"] := by decide

/-- Claim C9 (amended: the code performs the lookup first and resolves the
expiration second): for a request whose expiration string parses neither
way, when the lookup succeeds `CreateAccount` fails with the validation
error having issued exactly the account lookup call — the validation
failure still precedes the create and reactivation calls, but not the
lookup. -/
theorem createAccount_lookup_then_validation
    (env : Env) (req : S1AccountProvisioningRequest) (acctOpt : Option S1Account)
    (hfind : (FindAccount env req.AccountName).1 = Except.ok acctOpt)
    (hd : env.parseDuration req.Expires = none)
    (ht : env.parseRFC3339 req.Expires = none) :
    (CreateAccount env req).1 = Except.error (Err.clientError
      ("failed to parse account expiration time and date '" ++ req.Expires ++ "'")) ∧
    (CreateAccount env req).2 = [RemoteCall.findAccount req.AccountName] := by
  have hfr : findAccountResult env req.AccountName = Except.ok acctOpt := hfind
  have hres : resolveExpiration env req.Expires = Except.error (Err.clientError
      ("failed to parse account expiration time and date '" ++ req.Expires ++ "'")) := by
    unfold resolveExpiration
    simp [hd, ht]
  unfold CreateAccount
  simp [FindAccount, hfr, hres]

/-- Witness for the amended C9 at a concrete input. -/
theorem createAccount_lookup_then_validation_witness :
    (CreateAccount envC9 reqGarbage).1 = Except.error (Err.clientError
      "failed to parse account expiration time and date 'garbage'") ∧
    (CreateAccount envC9 reqGarbage).2 = [RemoteCall.findAccount "Acme"] :=
  createAccount_lookup_then_validation envC9 reqGarbage none
    (by decide) (by decide) (by decide)

/-! ### Claims C3, C6, C7 — user reconciliation -/

/-- A sample user provisioning request. -/
def reqUser : S1UserProvisioningRequest :=
  { FirstName := "Ada", LastName := "Lovelace", EmailAddress := "ada@acme.io",
    Role := "Viewer" }

/-- A wire scope-role entry binding to account `acct-1`. -/
def apiBinding : S1APIUserScopeRoleObject :=
  { ScopeID := "acct-1", RoleID := "role-9", RoleName := "Admin" }

/-- A wire user already holding a scope role for account `acct-1`. -/
def apiUserBound : S1APIUserObject :=
  { ID := "user-1", EmailAddress := "ada@acme.io", EmailVerified := true,
    TwoFactorStatus := "enabled", Scope := "account", ScopeRoles := [apiBinding] }

/-- A wire user holding a scope role only for an unrelated account. -/
def apiUserUnbound : S1APIUserObject :=
  { apiUserBound with
    ID := "user-2",
    ScopeRoles := [{ ScopeID := "acct-other", RoleID := "role-3", RoleName := "Viewer" }] }

/-- The domain user decoded from `apiUserBound`. -/
def userBound : S1User :=
  { ID := "user-1", EmailAddress := "ada@acme.io", EmailVerified := true,
    TwoFactorStatus := "enabled", Scope := "account",
    ScopeRoles := [{ ScopeID := "acct-1", RoleID := "role-9", RoleName := "Admin" }] }

/-- The domain user decoded from `apiUserUnbound`. -/
def userUnbound : S1User :=
  { userBound with
    ID := "user-2",
    ScopeRoles := [{ ScopeID := "acct-other", RoleID := "role-3", RoleName := "Viewer" }] }

/-- A wire `Admin` role scoped to account `acct-1`. -/
def apiAdminRole : S1APIRoleObject :=
  { AccountName := "Acme", ID := "role-9", Name := "Admin",
    PredefinedRole := true, Scope := "account", ScopeID := "acct-1",
    UsersInRole := 1 }

/-- The domain role decoded from `apiAdminRole`. -/
def adminRole : S1Role := fromS1APIRoleObject apiAdminRole

/-- Claim C3: when the user with the requested email exists and its
scope-role list already holds an entry whose scope identifier equals the
target account, `CreateUser` returns the existing user unchanged, and the
only remote calls issued are the two lookups — no update call, so the
scope-role list never gains a second entry for the account.  (The role
lookup is required to succeed, as the code aborts on its error before the
scope-role scan; its result may be absent or present.) -/
theorem createUser_existing_binding_idempotent
    (env : Env) (req : S1UserProvisioningRequest) (accountID : String)
    (user : S1User) (roleOpt : Option S1Role)
    (huser : (FindUser env req.EmailAddress).1 = Except.ok (some user))
    (hrole : (FindRole env accountID "Admin").1 = Except.ok roleOpt)
    (hhas : user.ScopeRoles.any (fun role => role.ScopeID == accountID) = true) :
    (CreateUser env req accountID).1 = GoResult.ok user ∧
    (CreateUser env req accountID).2 =
      [RemoteCall.findUser req.EmailAddress, RemoteCall.findRole accountID "Admin"] := by
  have hu : findUserResult env req.EmailAddress = Except.ok (some user) := huser
  have hr : findRoleResult env accountID "Admin" = Except.ok roleOpt := hrole
  unfold CreateUser
  simp only [FindUser, FindRole, hu, hr, hhas]
  simp

/-- Oracle environment for the C3 witness: the user lookup finds the bound
sample user, the role lookup finds the `Admin` role. -/
def envC3w : Env :=
  { emptyEnv with
    findUserExec := fun _ => ExecResult.ok [apiUserBound],
    findRoleExec := fun _ _ => ExecResult.ok [apiAdminRole] }

/-- Witness for C3 at a concrete input. -/
theorem createUser_existing_binding_idempotent_witness :
    (CreateUser envC3w reqUser "acct-1").1 = GoResult.ok userBound ∧
    (CreateUser envC3w reqUser "acct-1").2 =
      [RemoteCall.findUser "ada@acme.io", RemoteCall.findRole "acct-1" "Admin"] :=
  createUser_existing_binding_idempotent envC3w reqUser "acct-1" userBound
    (some adminRole) (by decide) (by decide) (by decide)

/-- Oracle environment for the C6 counterexample: no user exists, the role
lookup reports the `Admin` role absent, and the user create call succeeds. -/
def envC6x : Env :=
  { emptyEnv with
    createUserExec := fun _ => ExecResult.ok apiUserUnbound }

/-- Counterexample to claim C6 as stated: the `Admin` role lookup reports
the role does not exist (`FindRole` returns no role and no error), yet
`CreateUser` does not fail — it creates the user and returns it
successfully, because the code never checks the role lookup's nil result
on the new-user path. -/
theorem createUser_role_absent_cex :
    (FindRole envC6x "acct-1" "Admin").1 = Except.ok none ∧
    (CreateUser envC6x reqUser "acct-1").1 = GoResult.ok userUnbound := by decide

/-- Claim C6 (amended): a role-lookup *error* is indeed passed through as
a hard failure, but a lookup reporting the role absent (no role, no
error) is not: an existing user already bound to the target account is
returned successfully; an existing user not bound to it makes the code
dereference the nil role — a runtime panic, not an error return; a
nonexistent user is created with the requested role and the operation
proceeds to the create call. -/
theorem createUser_admin_role_absent
    (env : Env) (req : S1UserProvisioningRequest) (accountID : String) :
    (∀ e, (FindRole env accountID "Admin").1 = Except.error e →
       (FindUser env req.EmailAddress).1 = Except.ok none →
       (CreateUser env req accountID).1 = GoResult.err e) ∧
    ((FindRole env accountID "Admin").1 = Except.ok none →
       (∀ user, (FindUser env req.EmailAddress).1 = Except.ok (some user) →
          (user.ScopeRoles.any (fun role => role.ScopeID == accountID) = true →
             (CreateUser env req accountID).1 = GoResult.ok user) ∧
          (user.ScopeRoles.any (fun role => role.ScopeID == accountID) = false →
             (CreateUser env req accountID).1 = GoResult.nilPanic)) ∧
       ((FindUser env req.EmailAddress).1 = Except.ok none →
          (CreateUser env req accountID).2 =
            [RemoteCall.findUser req.EmailAddress, RemoteCall.findRole accountID "Admin",
             RemoteCall.createUser (mkCreateUserBody env req accountID)])) := by
  constructor
  · intro e hr hu
    have hr' : findRoleResult env accountID "Admin" = Except.error e := hr
    have hu' : findUserResult env req.EmailAddress = Except.ok none := hu
    unfold CreateUser
    simp [FindUser, FindRole, hu', hr']
  · intro hr
    have hr' : findRoleResult env accountID "Admin" = Except.ok none := hr
    constructor
    · intro user hu
      have hu' : findUserResult env req.EmailAddress = Except.ok (some user) := hu
      constructor
      · intro hhas
        unfold CreateUser
        simp [FindUser, FindRole, hu', hr', hhas]
      · intro hhas
        unfold CreateUser
        simp [FindUser, FindRole, hu', hr', hhas]
    · intro hu
      have hu' : findUserResult env req.EmailAddress = Except.ok none := hu
      unfold CreateUser
      simp only [FindUser, FindRole, hu', hr']
      cases hc : env.createUserExec (mkCreateUserBody env req accountID) with
      | execError e => rfl
      | decodeError => rfl
      | ok u => rfl

/-- Oracle environment for the C6 witness: role absent everywhere; the
bound user exists under `ada@acme.io`, the unbound user under
`eve@acme.io`, nobody under `new@acme.io`. -/
def envC6w : Env :=
  { emptyEnv with
    findUserExec := fun e =>
      if e == "ada@acme.io" then ExecResult.ok [apiUserBound]
      else if e == "eve@acme.io" then ExecResult.ok [apiUserUnbound]
      else ExecResult.ok [],
    createUserExec := fun _ => ExecResult.ok apiUserUnbound }

/-- The sample user request readdressed to the unbound existing user. -/
def reqUserEve : S1UserProvisioningRequest :=
  { reqUser with EmailAddress := "eve@acme.io" }

/-- The sample user request readdressed to a nonexistent user. -/
def reqUserNew : S1UserProvisioningRequest :=
  { reqUser with EmailAddress := "new@acme.io" }

/-- Witness for the amended C6 at concrete inputs: one per branch. -/
theorem createUser_admin_role_absent_witness :
    (CreateUser envC6w reqUser "acct-1").1 = GoResult.ok userBound ∧
    (CreateUser envC6w reqUserEve "acct-1").1 = GoResult.nilPanic ∧
    (CreateUser envC6w reqUserNew "acct-1").2 =
      [RemoteCall.findUser "new@acme.io", RemoteCall.findRole "acct-1" "Admin",
       RemoteCall.createUser (mkCreateUserBody envC6w reqUserNew "acct-1")] :=
  ⟨(((createUser_admin_role_absent envC6w reqUser "acct-1").2 (by decide)).1
      userBound (by decide)).1 (by decide),
   (((createUser_admin_role_absent envC6w reqUserEve "acct-1").2 (by decide)).1
      userUnbound (by decide)).2 (by decide),
   ((createUser_admin_role_absent envC6w reqUserNew "acct-1").2 (by decide)).2
      (by decide)⟩

/-- Claim C7: for an existing user with no scope-role entry for the target
account, the update call appends an entry carrying the resolved `Admin`
role's identifier and name — independent of the role named in the request;
for a nonexistent user, the create call carries the requested role name,
the full name joined by a single space, account-level scope, exactly one
scope-role entry naming the target account identifier, and
two-factor-enabled set true. -/
theorem createUser_role_assignment
    (env : Env) (req : S1UserProvisioningRequest) (accountID : String) :
    (∀ user adm,
       (FindUser env req.EmailAddress).1 = Except.ok (some user) →
       (FindRole env accountID "Admin").1 = Except.ok (some adm) →
       user.ScopeRoles.any (fun role => role.ScopeID == accountID) = false →
       (CreateUser env req accountID).2 =
         [RemoteCall.findUser req.EmailAddress, RemoteCall.findRole accountID "Admin",
          RemoteCall.updateUserScopeRoles user.ID "account" (user.ScopeRoles ++
            [{ ScopeID := accountID, RoleID := adm.ID, RoleName := adm.Name }])]) ∧
    (∀ roleOpt,
       (FindUser env req.EmailAddress).1 = Except.ok none →
       (FindRole env accountID "Admin").1 = Except.ok roleOpt →
       (CreateUser env req accountID).2 =
         [RemoteCall.findUser req.EmailAddress, RemoteCall.findRole accountID "Admin",
          RemoteCall.createUser
            { email := req.EmailAddress, password := env.randPassword,
              fullName := req.FirstName ++ " " ++ req.LastName, scope := "account",
              scopeRoles := [(accountID, req.Role)], twoFaEnabled := true }]) := by
  constructor
  · intro user adm hu hr hhas
    have hu' : findUserResult env req.EmailAddress = Except.ok (some user) := hu
    have hr' : findRoleResult env accountID "Admin" = Except.ok (some adm) := hr
    unfold CreateUser
    simp only [FindUser, FindRole, hu', hr', hhas]
    unfold UpdateUserScopeRoles
    cases hx : updateUserScopeRolesResult env user.ID (user.ScopeRoles ++
        [{ ScopeID := accountID, RoleID := adm.ID, RoleName := adm.Name }]) with
    | error e => simp [hx]
    | ok u => simp [hx]
  · intro roleOpt hu hr
    have hu' : findUserResult env req.EmailAddress = Except.ok none := hu
    have hr' : findRoleResult env accountID "Admin" = Except.ok roleOpt := hr
    unfold CreateUser
    simp only [FindUser, FindRole, hu', hr']
    cases hc : env.createUserExec (mkCreateUserBody env req accountID) with
    | execError e => simp [mkCreateUserBody]
    | decodeError => simp [mkCreateUserBody]
    | ok u => simp [mkCreateUserBody]

/-- Oracle environment for the C7 witness: the unbound user exists under
`eve@acme.io`, nobody under `new@acme.io`, the `Admin` role resolves, and
the mutation calls succeed. -/
def envC7w : Env :=
  { envC6w with
    findRoleExec := fun _ _ => ExecResult.ok [apiAdminRole],
    updateUserExec := fun _ _ => ExecResult.ok apiUserUnbound }

/-- Witness for C7 at concrete inputs: one per branch.  The appended entry
carries the Admin role's identifier and name even though the request named
`Viewer`; the create body carries `Viewer`. -/
theorem createUser_role_assignment_witness :
    (CreateUser envC7w reqUserEve "acct-1").2 =
      [RemoteCall.findUser "eve@acme.io", RemoteCall.findRole "acct-1" "Admin",
       RemoteCall.updateUserScopeRoles "user-2" "account"
         [{ ScopeID := "acct-other", RoleID := "role-3", RoleName := "Viewer" },
          { ScopeID := "acct-1", RoleID := "role-9", RoleName := "Admin" }]] ∧
    (CreateUser envC7w reqUserNew "acct-1").2 =
      [RemoteCall.findUser "new@acme.io", RemoteCall.findRole "acct-1" "Admin",
       RemoteCall.createUser
         { email := "new@acme.io", password := "pw", fullName := "Ada Lovelace",
           scope := "account", scopeRoles := [("acct-1", "Viewer")],
           twoFaEnabled := true }] :=
  ⟨(createUser_role_assignment envC7w reqUserEve "acct-1").1 userUnbound adminRole
     (by decide) (by decide) (by decide),
   (createUser_role_assignment envC7w reqUserNew "acct-1").2 (some adminRole)
     (by decide) (by decide)⟩

/-! ### Claim C8 — envelope error classification in `exec` -/

/-- Claim C8: a response whose body decodes to an envelope with a
non-empty `errors` list never yields a successful call, whatever the HTTP
status; when the status is below the method-not-allowed threshold (so the
decode path is reached) the call fails with exactly the single synthetic
"server returned one or more API errors" error, not the platform error
list; and a call succeeds only when the decoded errors list is empty. -/
theorem exec_envelope_errors_fail
    (baseURL method endpoint : String) (code : Nat) (resp : S1APIResponse)
    (hne : resp.Errors ≠ []) :
    (∀ out, exec baseURL method endpoint (HTTPOutcome.response code (some resp)) ≠
       Except.ok out) ∧
    (code < 405 →
       exec baseURL method endpoint (HTTPOutcome.response code (some resp)) =
         Except.error (Err.requestError method (execURL baseURL endpoint)
           "server returned one or more API errors")) ∧
    (∀ body out, exec baseURL method endpoint (HTTPOutcome.response code body) =
       Except.ok out → out.Errors = []) := by
  have hlen : 0 < resp.Errors.length := List.length_pos.mpr hne
  refine ⟨?_, ?_, ?_⟩
  · intro out
    unfold exec
    by_cases h405 : code ≥ 405
    · simp [h405]
    · have h500 : ¬ code ≥ 500 := by omega
      simp [h405, h500, hlen]
  · intro hlt
    have h405 : ¬ code ≥ 405 := by omega
    have h500 : ¬ code ≥ 500 := by omega
    unfold exec
    simp [h405, h500, hlen]
  · intro body out
    unfold exec
    by_cases h405 : code ≥ 405
    · simp [h405]
    · by_cases h500 : code ≥ 500
      · omega
      · cases body with
        | none => simp [h405, h500]
        | some r =>
          by_cases hr : 0 < r.Errors.length
          · simp [h405, h500, hr]
          · simp only [h405, h500] at *
            simp [hr]
            intro hout
            subst hout
            simpa using hr

/-- A concrete envelope carrying two platform error entries. -/
def twoErrResp : S1APIResponse :=
  { Errors := [{ code := 4000010, detail := "bad", title := "Validation Error" },
               { code := 4000020, detail := "worse", title := "Other Error" }],
    NextCursor := "", TotalItems := 0, Data := "{}" }

/-- Witness for C8: a response with two platform error entries and HTTP
status 200 is classified as a failed call carrying the single synthetic
error. -/
theorem exec_envelope_errors_fail_witness :
    exec "https://s1.example" "GET" "/accounts"
      (HTTPOutcome.response 200 (some twoErrResp)) =
    Except.error (Err.requestError "GET"
      (execURL "https://s1.example" "/accounts")
      "server returned one or more API errors") :=
  (exec_envelope_errors_fail "https://s1.example" "GET" "/accounts" 200 twoErrResp
    (by decide)).2.1 (by decide)

/-! ### Claim C10 — natural-key lookups report absence as nil, not error -/

/-- Claim C10: when the remote search succeeds with an empty result list,
each of `FindAccount` (by name), `FindUser` (by email) and `FindRole` (by
account and role name) returns no object and no error. -/
theorem find_empty_result_is_nil_not_error
    (env : Env) (name email accountID roleName : String)
    (ha : env.findAccountExec name = ExecResult.ok [])
    (hu : env.findUserExec email = ExecResult.ok [])
    (hr : env.findRoleExec accountID roleName = ExecResult.ok []) :
    (FindAccount env name).1 = Except.ok none ∧
    (FindUser env email).1 = Except.ok none ∧
    (FindRole env accountID roleName).1 = Except.ok none := by
  refine ⟨?_, ?_, ?_⟩
  · unfold FindAccount findAccountResult
    simp [ha]
  · unfold FindUser findUserResult
    simp [hu]
  · unfold FindRole findRoleResult
    simp [hr]

/-- Witness for C10 at a concrete input. -/
theorem find_empty_result_is_nil_not_error_witness :
    (FindAccount emptyEnv "Acme").1 = Except.ok none ∧
    (FindUser emptyEnv "ada@acme.io").1 = Except.ok none ∧
    (FindRole emptyEnv "acct-1" "Admin").1 = Except.ok none :=
  find_empty_result_is_nil_not_error emptyEnv "Acme" "ada@acme.io" "acct-1" "Admin"
    (by decide) (by decide) (by decide)

end S1Client
